import Mathlib

/-!
Shallow embedding of the ts-optional repository (itfobos/ts-optional).

Source files embedded here:
- src/string-utils.ts   : isNullOrEmpty, isNotNullOrEmpty
- src/object-utils.ts   : requireNonNull, requireNonEmpty, isNullOrUndefined,
                          isNotNullOrUndefined
- src/optional.ts       : the Optional class and its combinators

Modelling conventions:
- JavaScript runtime values are the inductive type JSVal: null, undefined,
  numbers (as Int: the claims involve no NaN or fractional arithmetic),
  strings, booleans, and objects identified by a Nat identity tag, so that
  strict equality on objects is reference identity as in JavaScript.
- A TypeScript function that can throw is embedded as a function into
  Except JSError. JSError records the message of the thrown Error.
- Caller-supplied callbacks (predicate, mapper, producer, error supplier)
  are embedded as state transformers over an arbitrary state type sigma, so
  that "the callback is never invoked" and "the callback is invoked exactly
  once" are exact statements about the resulting state, not merely
  observational ones. An exception propagating out of a method carries the
  state at the throw point.
- A TypeScript parameter typed T-or-null-or-undefined, where only the
  null-ness of the value matters (callbacks, the Optional result of a
  flatMap mapper, the optional message strings), is embedded as Option:
  none stands for null or undefined, which the source code never tells
  apart at such positions (it only applies isNullOrUndefined).
-/

namespace TsOptional

/-- JavaScript runtime values as used by this library: null, undefined,
numbers, strings, booleans, and objects carrying an identity tag. -/
inductive JSVal : Type where
  | vnull : JSVal
  | vundefined : JSVal
  | vnum : Int → JSVal
  | vstr : String → JSVal
  | vbool : Bool → JSVal
  | vobj : Nat → JSVal
deriving DecidableEq, Repr

/-- JavaScript strict equality on the modelled value domain: values of
different kinds are never equal, primitives compare by value, objects
compare by identity tag. -/
def strictEq : JSVal → JSVal → Bool
  | .vnull, .vnull => true
  | .vundefined, .vundefined => true
  | .vnum a, .vnum b => a == b
  | .vstr a, .vstr b => a == b
  | .vbool a, .vbool b => a == b
  | .vobj a, .vobj b => a == b
  | _, _ => false

/-- Types of the embedding that play the role of a TypeScript type
T-or-null-or-undefined: they carry a null test, rendered as a partial
projection to the underlying non-null type NonNull (the TypeScript T), which
is what a cast obj as T extracts. -/
class Nullish (α : Type) where
  NonNull : Type
  toNonNull : α → Option NonNull

/-- JSVal is nullable by itself: null and undefined are values of the
domain; every other value is its own non-null content. -/
instance : Nullish JSVal where
  NonNull := JSVal
  toNonNull v :=
    match v with
    | .vnull => none
    | .vundefined => none
    | v => some v

/-- Option α embeds a TypeScript argument of type alpha-or-null-or-undefined
at positions where the source only ever tests null-ness (callbacks, the
Optional result of a flatMap mapper, optional message strings). -/
instance {α : Type} : Nullish (Option α) where
  NonNull := α
  toNonNull o := o

/-- object-utils.ts, isNullOrUndefined: value === undefined or value === null. -/
def isNullOrUndefined {α : Type} [Nullish α] (value : α) : Bool :=
  (Nullish.toNonNull value).isNone

/-- object-utils.ts, isNotNullOrUndefined: negation of isNullOrUndefined. -/
def isNotNullOrUndefined {α : Type} [Nullish α] (obj : α) : Bool :=
  !isNullOrUndefined obj

/-- string-utils.ts, isNullOrEmpty: the string is undefined, null, or has
length zero. The argument type string-or-null-or-undefined is Option String,
none standing for null or undefined. -/
def isNullOrEmpty (srcStr : Option String) : Bool :=
  match srcStr with
  | none => true
  | some s => s.length == 0

/-- string-utils.ts, isNotNullOrEmpty: negation of isNullOrEmpty. -/
def isNotNullOrEmpty (srcStr : Option String) : Bool :=
  !isNullOrEmpty srcStr

/-- A thrown JavaScript Error, recording its message. -/
structure JSError : Type where
  message : String
deriving DecidableEq, Repr

/-- The message selection in both guard helpers:
`isNotNullOrEmpty(message) ? message : <default>`. When the test succeeds the
message is some non-empty string and that string is used. -/
def messageOrDefault (message : Option String) (dflt : String) : String :=
  if isNotNullOrEmpty message then message.getD dflt else dflt

/-- object-utils.ts, requireNonNull: throws Error with the supplied message
(when given and non-empty, else the default message) on a null or undefined
argument, and returns the argument unchanged otherwise. Generic over every
embedded type carrying a null test, as the TypeScript original is generic. -/
def requireNonNull {α : Type} [Nullish α] (obj : α) (message : Option String) :
    Except JSError (Nullish.NonNull α) :=
  match Nullish.toNonNull obj with
  | none => .error ⟨messageOrDefault message "nullable argument"⟩
  | some a => .ok a

/-- object-utils.ts, requireNonEmpty: same shape as requireNonNull, but the
failure condition is isNullOrEmpty and the default message differs. The
success branch returns the string behind the cast str as string. -/
def requireNonEmpty (str : Option String) (message : Option String) :
    Except JSError String :=
  if isNullOrEmpty str then
    .error ⟨messageOrDefault message "nullable or empty argument"⟩
  else
    .ok (str.getD "")

/-- The Optional class: a single private slot
value of type T-or-null-or-undefined. -/
structure Optional : Type where
  value : JSVal
deriving DecidableEq, Repr

/-- The private constructor, constructor(value?: T): stores null when the
argument is null or undefined, the argument itself otherwise. Calling the
constructor with no argument is calling it with undefined. -/
def Optional.construct (value : JSVal) : Optional :=
  if isNullOrUndefined value then ⟨JSVal.vnull⟩ else ⟨value⟩

/-- The shared EMPTY instance, new Optional() with no argument. -/
def Optional.EMPTY : Optional :=
  Optional.construct JSVal.vundefined

/-- Optional.empty(): returns the shared EMPTY instance. -/
def Optional.empty : Optional :=
  Optional.EMPTY

/-- Optional.of(value): new Optional(requireNonNull(value)); throws on a null
or undefined argument, with no custom message. -/
def Optional.of (value : JSVal) : Except JSError Optional :=
  (requireNonNull value none).map Optional.construct

/-- Optional.ofNullable(value): empty() on a null or undefined argument,
of(value) otherwise. -/
def Optional.ofNullable (value : JSVal) : Except JSError Optional :=
  if isNullOrUndefined value then .ok Optional.empty else Optional.of value

/-- The private accessor nonNullValue: the slot behind the cast
this.value as T. -/
def Optional.nonNullValue (o : Optional) : JSVal :=
  o.value

/-- Optional.get(): throws Error with message No value present when the slot
is null or undefined, returns the slot otherwise. -/
def Optional.get (o : Optional) : Except JSError JSVal :=
  if isNullOrUndefined o.value then
    .error ⟨"No value present"⟩
  else
    .ok o.value

/-- Optional.isPresent(): isNotNullOrUndefined of the slot. -/
def Optional.isPresent (o : Optional) : Bool :=
  isNotNullOrUndefined o.value

/-- Optional.isEmpty(): isNullOrUndefined of the slot. -/
def Optional.isEmpty (o : Optional) : Bool :=
  isNullOrUndefined o.value

/-- Exception plumbing for methods that thread a callback state: a throw
propagating out of the method carries the state at the throw point. -/
def withState {σ α : Type} (s : σ) (r : Except JSError α) :
    Except (JSError × σ) α :=
  match r with
  | .error e => .error (e, s)
  | .ok a => .ok a

/-- Optional.filter(predicate): requireNonNull(predicate) first, with no
custom message; then return the receiver when not present; otherwise return
the receiver when the predicate holds on the slot value, else empty(). The
predicate is a state transformer; none embeds a null or undefined argument. -/
def Optional.filter {σ : Type} (o : Optional)
    (predicate : Option (σ → JSVal → Bool × σ)) (s : σ) :
    Except (JSError × σ) (Optional × σ) := do
  let p ← withState s (requireNonNull predicate none)
  if !o.isPresent then
    return (o, s)
  else
    let (b, s1) := p s o.nonNullValue
    return (if b then o else Optional.empty, s1)

/-- Optional.map(mapper): requireNonNull(mapper) first, with no custom
message; then return empty() when not present; otherwise return
ofNullable(mapper(nonNullValue)). The mapper is a state transformer; none
embeds a null or undefined argument. -/
def Optional.map {σ : Type} (o : Optional)
    (mapper : Option (σ → JSVal → JSVal × σ)) (s : σ) :
    Except (JSError × σ) (Optional × σ) := do
  let m ← withState s (requireNonNull mapper none)
  if !o.isPresent then
    return (Optional.empty, s)
  else
    let (u, s1) := m s o.nonNullValue
    let r ← withState s1 (Optional.ofNullable u)
    return (r, s1)

/-- Optional.flatMap(mapper): requireNonNull(mapper) first, with no custom
message; then return empty() when not present; otherwise return
requireNonNull(mapper(nonNullValue)) with no additional wrapping. The mapper
returns an Optional or null or undefined, embedded as Option Optional. -/
def Optional.flatMap {σ : Type} (o : Optional)
    (mapper : Option (σ → JSVal → Option Optional × σ)) (s : σ) :
    Except (JSError × σ) (Optional × σ) := do
  let m ← withState s (requireNonNull mapper none)
  if !o.isPresent then
    return (Optional.empty, s)
  else
    let (u, s1) := m s o.nonNullValue
    let r ← withState s1 (requireNonNull u none)
    return (r, s1)

/-- Optional.orElse(other): the slot when it is not null or undefined, else
other; no validation is performed on other. -/
def Optional.orElse (o : Optional) (other : JSVal) : JSVal :=
  if !isNullOrUndefined o.value then o.nonNullValue else other

/-- Optional.orElseGet(other): the slot when it is not null or undefined,
else the result of invoking the producer; the producer is a state
transformer invoked with no arguments. -/
def Optional.orElseGet {σ : Type} (o : Optional) (other : σ → JSVal × σ)
    (s : σ) : JSVal × σ :=
  if !isNullOrUndefined o.value then (o.nonNullValue, s) else other s

/-- Optional.orElseThrow(exceptionSupplier): the slot when it is not null or
undefined, else the supplier is invoked and the Error it returns is thrown
as-is. -/
def Optional.orElseThrow {σ : Type} (o : Optional)
    (exceptionSupplier : σ → JSError × σ) (s : σ) :
    Except (JSError × σ) (JSVal × σ) :=
  if !isNullOrUndefined o.value then
    .ok (o.nonNullValue, s)
  else
    let (e, s1) := exceptionSupplier s
    .error (e, s1)

/-- Optional.equals(obj): in the source, reference equality of the receiver
and the argument short-circuits to true, and otherwise the two slots are
compared with strict equality. On the modelled value domain strictEq is
reflexive (there is no NaN), so the short-circuit branch never changes the
result and the comparison of the slots embeds both branches. When the
argument is null or undefined (none), reading obj.value throws a TypeError
at runtime; equals has no null check on its argument. -/
def Optional.equals (o : Optional) (obj : Option Optional) :
    Except JSError Bool :=
  match obj with
  | none => .error ⟨"TypeError: Cannot read properties of null or undefined"⟩
  | some other => .ok (strictEq o.value other.value)

/-! Small computation lemmas about the embedded helpers, used throughout the
claim proofs. -/

@[simp] theorem isNullOrUndefined_vnull : isNullOrUndefined JSVal.vnull = true := rfl

@[simp] theorem isNullOrUndefined_vundefined :
    isNullOrUndefined JSVal.vundefined = true := rfl

@[simp] theorem isNullOrUndefined_vnum (n : Int) :
    isNullOrUndefined (JSVal.vnum n) = false := rfl

@[simp] theorem isNullOrUndefined_vstr (s : String) :
    isNullOrUndefined (JSVal.vstr s) = false := rfl

@[simp] theorem isNullOrUndefined_vbool (b : Bool) :
    isNullOrUndefined (JSVal.vbool b) = false := rfl

@[simp] theorem isNullOrUndefined_vobj (n : Nat) :
    isNullOrUndefined (JSVal.vobj n) = false := rfl

@[simp] theorem isNullOrUndefined_none {α : Type} :
    isNullOrUndefined (none : Option α) = true := rfl

@[simp] theorem isNullOrUndefined_some {α : Type} (a : α) :
    isNullOrUndefined (some a) = false := rfl

@[simp] theorem requireNonNull_opt_none {α : Type} (msg : Option String) :
    requireNonNull (none : Option α) msg =
      .error ⟨messageOrDefault msg "nullable argument"⟩ := rfl

@[simp] theorem requireNonNull_opt_some {α : Type} (a : α) (msg : Option String) :
    requireNonNull (some a) msg = .ok a := rfl

@[simp] theorem withState_ok {σ α : Type} (s : σ) (a : α) :
    withState s (Except.ok a) = .ok a := rfl

@[simp] theorem withState_error {σ α : Type} (s : σ) (e : JSError) :
    withState (α := α) s (Except.error e) = .error (e, s) := rfl

@[simp] theorem messageOrDefault_none (dflt : String) :
    messageOrDefault none dflt = dflt := rfl

@[simp] theorem messageOrDefault_empty (dflt : String) :
    messageOrDefault (some "") dflt = dflt := rfl

theorem messageOrDefault_nonempty {m : String} (h : m.length ≠ 0)
    (dflt : String) : messageOrDefault (some m) dflt = m := by
  simp [messageOrDefault, isNotNullOrEmpty, isNullOrEmpty, h]

theorem requireNonNull_jsval_nonnull {v : JSVal}
    (h : isNullOrUndefined v = false) (msg : Option String) :
    requireNonNull v msg = .ok v := by
  cases v <;> simp_all [requireNonNull, Nullish.toNonNull]

theorem requireNonNull_jsval_nullish {v : JSVal}
    (h : isNullOrUndefined v = true) (msg : Option String) :
    requireNonNull v msg = .error ⟨messageOrDefault msg "nullable argument"⟩ := by
  cases v <;> simp_all [requireNonNull, Nullish.toNonNull]

theorem strictEq_refl (v : JSVal) : strictEq v v = true := by
  cases v <;> simp [strictEq]

@[simp] theorem empty_eq : Optional.empty = ⟨JSVal.vnull⟩ := rfl

theorem construct_nonnull {v : JSVal} (h : isNullOrUndefined v = false) :
    Optional.construct v = ⟨v⟩ := by
  simp [Optional.construct, h]

theorem ofNullable_eq_construct (v : JSVal) :
    Optional.ofNullable v = .ok (Optional.construct v) := by
  cases v <;> rfl

theorem of_nonnull {v : JSVal} (h : isNullOrUndefined v = false) :
    Optional.of v = .ok ⟨v⟩ := by
  rw [Optional.of, requireNonNull_jsval_nonnull h, Except.map,
    construct_nonnull h]

@[simp] theorem except_bind_ok {ε α β : Type} (a : α) (f : α → Except ε β) :
    (Except.ok a >>= f) = f a := rfl

@[simp] theorem except_bind_error {ε α β : Type} (e : ε)
    (f : α → Except ε β) : (Except.error e >>= f) = Except.error e := rfl

@[simp] theorem except_pure {ε α : Type} (a : α) :
    (pure a : Except ε α) = Except.ok a := rfl

theorem isPresent_eq_not_isEmpty (o : Optional) :
    o.isPresent = !o.isEmpty := by
  simp [Optional.isPresent, Optional.isEmpty, isNotNullOrUndefined]

/-! The claim theorems. -/

/-- C7: requireNonNull returns a non-null value unchanged, and on a null or
undefined value throws with the supplied message when it is given and
non-empty, else the default message nullable argument; requireNonEmpty has
the same contract with string absence-or-emptiness as the failure condition
and default message nullable or empty argument; in both, an empty-string
message falls back to the default. -/
theorem requireNonNull_requireNonEmpty_contract (v : JSVal) (s m : String) :
    (isNullOrUndefined v = false →
        requireNonNull v (some m) = .ok v ∧ requireNonNull v none = .ok v)
    ∧ (isNullOrUndefined v = true → m.length ≠ 0 →
        requireNonNull v (some m) = .error ⟨m⟩)
    ∧ (isNullOrUndefined v = true →
        requireNonNull v none = .error ⟨"nullable argument"⟩
        ∧ requireNonNull v (some "") = .error ⟨"nullable argument"⟩)
    ∧ (s.length ≠ 0 →
        requireNonEmpty (some s) (some m) = .ok s
        ∧ requireNonEmpty (some s) none = .ok s)
    ∧ (m.length ≠ 0 →
        requireNonEmpty none (some m) = .error ⟨m⟩
        ∧ requireNonEmpty (some "") (some m) = .error ⟨m⟩)
    ∧ (requireNonEmpty none none = .error ⟨"nullable or empty argument"⟩
        ∧ requireNonEmpty (some "") none = .error ⟨"nullable or empty argument"⟩
        ∧ requireNonEmpty none (some "") = .error ⟨"nullable or empty argument"⟩
        ∧ requireNonEmpty (some "") (some "") =
            .error ⟨"nullable or empty argument"⟩) := by
  refine ⟨fun h => ⟨requireNonNull_jsval_nonnull h _,
      requireNonNull_jsval_nonnull h _⟩,
    fun h hm => ?_, fun h => ?_, fun hs => ?_, fun hm => ?_, ?_⟩
  · rw [requireNonNull_jsval_nullish h, messageOrDefault_nonempty hm]
  · rw [requireNonNull_jsval_nullish h, requireNonNull_jsval_nullish h]
    simp
  · constructor <;> simp [requireNonEmpty, isNullOrEmpty, hs]
  · constructor <;>
      simp [requireNonEmpty, isNullOrEmpty, messageOrDefault_nonempty hm]
  · refine ⟨rfl, rfl, rfl, rfl⟩

/-- C7 witness: concrete instances of the guard contracts. -/
theorem requireNonNull_requireNonEmpty_contract_witness :
    requireNonNull JSVal.vnull (some "msg") = .error ⟨"msg"⟩
    ∧ requireNonNull (JSVal.vnum 0) none = .ok (JSVal.vnum 0)
    ∧ requireNonEmpty (some "x") (some "") = .ok "x"
    ∧ requireNonEmpty (some "") (some "") =
        .error ⟨"nullable or empty argument"⟩ := by
  obtain ⟨h1, h2, h3, h4, h5, h6⟩ :=
    requireNonNull_requireNonEmpty_contract JSVal.vnull "x" "msg"
  obtain ⟨g1, g2, g3, g4, g5, g6⟩ :=
    requireNonNull_requireNonEmpty_contract (JSVal.vnum 0) "x" ""
  exact ⟨h2 rfl (by decide), (g1 rfl).2, (g4 (by decide)).1, h6.2.2.2⟩

/-- C4: for every value that is not null and not undefined, including the
falsy values zero, the empty string and false, Optional.of succeeds with a
present instance holding exactly that value: get returns it, isPresent is
true, isEmpty is false. -/
theorem of_preserves_nonnull_value (v : JSVal)
    (h : isNullOrUndefined v = false) :
    Optional.of v = .ok ⟨v⟩
    ∧ (⟨v⟩ : Optional).get = .ok v
    ∧ (⟨v⟩ : Optional).isPresent = true
    ∧ (⟨v⟩ : Optional).isEmpty = false := by
  refine ⟨of_nonnull h, ?_, ?_, ?_⟩ <;>
    simp [Optional.get, Optional.isPresent, Optional.isEmpty,
      isNotNullOrUndefined, h]

/-- C4 witness: the three falsy values zero, empty string and false all give
a present Optional. -/
theorem of_preserves_nonnull_value_witness :
    (Optional.of (JSVal.vnum 0) = .ok ⟨JSVal.vnum 0⟩
      ∧ (⟨JSVal.vnum 0⟩ : Optional).get = .ok (JSVal.vnum 0)
      ∧ (⟨JSVal.vnum 0⟩ : Optional).isPresent = true
      ∧ (⟨JSVal.vnum 0⟩ : Optional).isEmpty = false)
    ∧ (Optional.of (JSVal.vstr "") = .ok ⟨JSVal.vstr ""⟩
      ∧ (⟨JSVal.vstr ""⟩ : Optional).get = .ok (JSVal.vstr "")
      ∧ (⟨JSVal.vstr ""⟩ : Optional).isPresent = true
      ∧ (⟨JSVal.vstr ""⟩ : Optional).isEmpty = false)
    ∧ (Optional.of (JSVal.vbool false) = .ok ⟨JSVal.vbool false⟩
      ∧ (⟨JSVal.vbool false⟩ : Optional).get = .ok (JSVal.vbool false)
      ∧ (⟨JSVal.vbool false⟩ : Optional).isPresent = true
      ∧ (⟨JSVal.vbool false⟩ : Optional).isEmpty = false) :=
  ⟨of_preserves_nonnull_value (JSVal.vnum 0) rfl,
   of_preserves_nonnull_value (JSVal.vstr "") rfl,
   of_preserves_nonnull_value (JSVal.vbool false) rfl⟩

/-- C5: get returns the slot value on a present Optional and throws with the
exact message No value present on an empty one; Optional.of throws with the
default message nullable argument on null and on undefined; ofNullable
returns the empty Optional on null and on undefined without throwing. -/
theorem get_of_ofNullable_contract (o : Optional) :
    (o.isPresent = true → o.get = .ok o.value)
    ∧ (o.isEmpty = true → o.get = .error ⟨"No value present"⟩)
    ∧ Optional.of JSVal.vnull = .error ⟨"nullable argument"⟩
    ∧ Optional.of JSVal.vundefined = .error ⟨"nullable argument"⟩
    ∧ Optional.ofNullable JSVal.vnull = .ok Optional.empty
    ∧ Optional.ofNullable JSVal.vundefined = .ok Optional.empty := by
  obtain ⟨v⟩ := o
  refine ⟨fun h => ?_, fun h => ?_, rfl, rfl, rfl, rfl⟩ <;>
    simp_all [Optional.get, Optional.isPresent, Optional.isEmpty,
      isNotNullOrUndefined]

/-- C5 witness: the contract evaluated on a present and on an empty
instance. -/
theorem get_of_ofNullable_contract_witness :
    (⟨JSVal.vnum 7⟩ : Optional).get = .ok (JSVal.vnum 7)
    ∧ Optional.empty.get = .error ⟨"No value present"⟩ :=
  ⟨(get_of_ofNullable_contract ⟨JSVal.vnum 7⟩).1 rfl,
   (get_of_ofNullable_contract Optional.empty).2.1 rfl⟩

/-- C8: for every Optional instance, isEmpty is the boolean negation of
isPresent; exactly one of the two holds. -/
theorem isEmpty_negates_isPresent (o : Optional) :
    o.isEmpty = !o.isPresent
    ∧ (o.isPresent = true ∨ o.isEmpty = true)
    ∧ ¬(o.isPresent = true ∧ o.isEmpty = true) := by
  obtain ⟨v⟩ := o
  cases v <;> simp [Optional.isPresent, Optional.isEmpty, isNotNullOrUndefined]

/-- C3: filter with a null predicate throws with message nullable argument
on every Optional, present or empty, the validation being unconditional; with
a non-null predicate an empty Optional returns the receiver (an empty
Optional) without consulting the predicate, and a present one returns the
receiver when the predicate holds on its value and the empty Optional
otherwise. -/
theorem filter_contract {σ : Type} (o : Optional) (p : σ → JSVal → Bool × σ)
    (s : σ) :
    Optional.filter o (none : Option (σ → JSVal → Bool × σ)) s =
        .error (⟨"nullable argument"⟩, s)
    ∧ (o.isEmpty = true → Optional.filter o (some p) s = .ok (o, s))
    ∧ (o.isPresent = true → (p s o.value).1 = true →
        Optional.filter o (some p) s = .ok (o, (p s o.value).2))
    ∧ (o.isPresent = true → (p s o.value).1 = false →
        Optional.filter o (some p) s = .ok (Optional.empty, (p s o.value).2)) := by
  refine ⟨by simp [Optional.filter], fun h => ?_, fun h hp => ?_,
    fun h hp => ?_⟩
  · simp [Optional.filter, isPresent_eq_not_isEmpty, h]
  · rcases hps : p s o.value with ⟨b, s1⟩
    rw [hps] at hp
    simp_all [Optional.filter, Optional.nonNullValue]
  · rcases hps : p s o.value with ⟨b, s1⟩
    rw [hps] at hp
    simp_all [Optional.filter, Optional.nonNullValue]

/-- C3 witness: a null predicate fails on a present instance; a present
instance is kept or dropped according to the predicate; the predicate state
records the single invocation. -/
theorem filter_contract_witness :
    Optional.filter (σ := Nat) ⟨JSVal.vnum 5⟩
        (none : Option (Nat → JSVal → Bool × Nat)) 0 =
      .error (⟨"nullable argument"⟩, 0)
    ∧ Optional.filter (σ := Nat) Optional.empty
        (some fun s _ => (true, s + 1)) 0 = .ok (Optional.empty, 0)
    ∧ Optional.filter (σ := Nat) ⟨JSVal.vnum 5⟩
        (some fun s _ => (true, s + 1)) 0 = .ok (⟨JSVal.vnum 5⟩, 1)
    ∧ Optional.filter (σ := Nat) ⟨JSVal.vnum 5⟩
        (some fun s _ => (false, s + 1)) 0 = .ok (Optional.empty, 1) := by
  refine ⟨(filter_contract ⟨JSVal.vnum 5⟩ (fun s _ => (true, s + 1)) 0).1,
    (filter_contract Optional.empty (fun s _ => (true, s + 1)) 0).2.1 rfl,
    (filter_contract ⟨JSVal.vnum 5⟩ (fun s _ => (true, s + 1)) 0).2.2.1 rfl rfl,
    (filter_contract ⟨JSVal.vnum 5⟩ (fun s _ => (false, s + 1)) 0).2.2.2 rfl rfl⟩

/-- C1: map with a null mapper throws with message nullable argument on
every Optional, present or empty, the validation being unconditional; on an
empty Optional with a non-null mapper it returns the empty Optional with the
mapper never invoked (the callback state is returned untouched); on a
present Optional it returns ofNullable of the mapper result, so a null or
undefined mapper result collapses to the empty Optional rather than to a
present Optional holding null. -/
theorem map_contract {σ : Type} (o : Optional) (f : σ → JSVal → JSVal × σ)
    (s : σ) :
    Optional.map o (none : Option (σ → JSVal → JSVal × σ)) s =
        .error (⟨"nullable argument"⟩, s)
    ∧ (o.isEmpty = true → Optional.map o (some f) s = .ok (Optional.empty, s))
    ∧ (o.isPresent = true →
        Optional.ofNullable (f s o.value).1 =
            .ok (Optional.construct (f s o.value).1)
        ∧ Optional.map o (some f) s =
            .ok (Optional.construct (f s o.value).1, (f s o.value).2))
    ∧ (o.isPresent = true → isNullOrUndefined (f s o.value).1 = true →
        Optional.map o (some f) s = .ok (Optional.empty, (f s o.value).2)) := by
  refine ⟨by simp [Optional.map], fun h => ?_, fun h => ?_, fun h hn => ?_⟩
  · simp [Optional.map, isPresent_eq_not_isEmpty, h]
  · refine ⟨ofNullable_eq_construct _, ?_⟩
    rcases hfs : f s o.value with ⟨u, s1⟩
    simp [Optional.map, Optional.nonNullValue, h, hfs,
      ofNullable_eq_construct]
  · rcases hfs : f s o.value with ⟨u, s1⟩
    rw [hfs] at hn
    simp_all [Optional.map, Optional.nonNullValue, ofNullable_eq_construct,
      Optional.construct]

/-- C1 witness: map on concrete instances, with the callback state counting
mapper invocations: zero on the empty Optional, one on a present one;
a mapper returning null collapses to the empty Optional. -/
theorem map_contract_witness :
    Optional.map (σ := Nat) Optional.empty
        (none : Option (Nat → JSVal → JSVal × Nat)) 0 =
      .error (⟨"nullable argument"⟩, 0)
    ∧ Optional.map (σ := Nat) Optional.empty
        (some fun s _ => (JSVal.vnum 1, s + 1)) 0 = .ok (Optional.empty, 0)
    ∧ Optional.map (σ := Nat) ⟨JSVal.vnum 5⟩
        (some fun s v => (v, s + 1)) 0 = .ok (⟨JSVal.vnum 5⟩, 1)
    ∧ Optional.map (σ := Nat) ⟨JSVal.vnum 5⟩
        (some fun s _ => (JSVal.vnull, s + 1)) 0 = .ok (Optional.empty, 1) := by
  refine ⟨(map_contract Optional.empty (fun s _ => (JSVal.vnum 1, s + 1)) 0).1,
    (map_contract Optional.empty (fun s _ => (JSVal.vnum 1, s + 1)) 0).2.1 rfl,
    ((map_contract ⟨JSVal.vnum 5⟩ (fun s v => (v, s + 1)) 0).2.2.1 rfl).2,
    (map_contract ⟨JSVal.vnum 5⟩ (fun s _ => (JSVal.vnull, s + 1)) 0).2.2.2
      rfl rfl⟩

/-- C2: flatMap with a null mapper throws with message nullable argument on
every Optional, present or empty, the validation being unconditional; on an
empty Optional with a non-null mapper it returns the empty Optional with the
mapper never invoked (the callback state is returned untouched); on a
present Optional it invokes the mapper once, throws with message nullable
argument when the mapper result is null or undefined, and otherwise returns
the Optional the mapper produced, with no additional wrapping. -/
theorem flatMap_contract {σ : Type} (o : Optional)
    (f : σ → JSVal → Option Optional × σ) (s : σ) :
    Optional.flatMap o (none : Option (σ → JSVal → Option Optional × σ)) s =
        .error (⟨"nullable argument"⟩, s)
    ∧ (o.isEmpty = true →
        Optional.flatMap o (some f) s = .ok (Optional.empty, s))
    ∧ (o.isPresent = true → (f s o.value).1 = none →
        Optional.flatMap o (some f) s =
          .error (⟨"nullable argument"⟩, (f s o.value).2))
    ∧ (o.isPresent = true → ∀ r : Optional, (f s o.value).1 = some r →
        Optional.flatMap o (some f) s = .ok (r, (f s o.value).2)) := by
  refine ⟨by simp [Optional.flatMap], fun h => ?_, fun h hn => ?_,
    fun h r hr => ?_⟩
  · simp [Optional.flatMap, isPresent_eq_not_isEmpty, h]
  · rcases hfs : f s o.value with ⟨u, s1⟩
    rw [hfs] at hn
    simp_all [Optional.flatMap, Optional.nonNullValue]
  · rcases hfs : f s o.value with ⟨u, s1⟩
    rw [hfs] at hr
    simp_all [Optional.flatMap, Optional.nonNullValue]

/-- C2 witness: flatMap on concrete instances, with the callback state
counting mapper invocations: zero on the empty Optional; a mapper returning
null throws; an Optional-returning mapper result is passed through
unwrapped. -/
theorem flatMap_contract_witness :
    Optional.flatMap (σ := Nat) Optional.empty
        (none : Option (Nat → JSVal → Option Optional × Nat)) 0 =
      .error (⟨"nullable argument"⟩, 0)
    ∧ Optional.flatMap (σ := Nat) Optional.empty
        (some fun s _ => (some ⟨JSVal.vnum 1⟩, s + 1)) 0 =
      .ok (Optional.empty, 0)
    ∧ Optional.flatMap (σ := Nat) ⟨JSVal.vnum 5⟩
        (some fun s _ => (none, s + 1)) 0 =
      .error (⟨"nullable argument"⟩, 1)
    ∧ Optional.flatMap (σ := Nat) ⟨JSVal.vnum 5⟩
        (some fun s _ => (some ⟨JSVal.vstr "5"⟩, s + 1)) 0 =
      .ok (⟨JSVal.vstr "5"⟩, 1) := by
  refine
    ⟨(flatMap_contract Optional.empty
        (fun s _ => (some ⟨JSVal.vnum 1⟩, s + 1)) 0).1,
    (flatMap_contract Optional.empty
        (fun s _ => (some ⟨JSVal.vnum 1⟩, s + 1)) 0).2.1 rfl,
    (flatMap_contract ⟨JSVal.vnum 5⟩
        (fun s _ => (none, s + 1)) 0).2.2.1 rfl rfl,
    (flatMap_contract ⟨JSVal.vnum 5⟩
        (fun s _ => (some ⟨JSVal.vstr "5"⟩, s + 1)) 0).2.2.2 rfl
      ⟨JSVal.vstr "5"⟩ rfl⟩

/-- C6: on a present Optional, orElse, orElseGet and orElseThrow all return
the contained value and never invoke the producer or the error supplier (the
callback state comes back untouched, for every callback); on an empty
Optional, orElse returns the fallback argument unvalidated, even a null or
undefined one, orElseGet invokes the producer exactly once and returns its
result, and orElseThrow invokes the error supplier exactly once and throws
the very error it returns. -/
theorem orElse_orElseGet_orElseThrow_contract {σ : Type} (o : Optional)
    (other : JSVal) (f : σ → JSVal × σ) (g : σ → JSError × σ) (s : σ) :
    (o.isPresent = true →
        o.orElse other = o.value
        ∧ o.orElseGet f s = (o.value, s)
        ∧ o.orElseThrow g s = .ok (o.value, s))
    ∧ (o.isEmpty = true →
        o.orElse other = other
        ∧ o.orElseGet f s = f s
        ∧ o.orElseThrow g s = .error (g s)) := by
  constructor
  · intro h
    rw [Optional.isPresent, isNotNullOrUndefined, Bool.not_eq_true'] at h
    refine ⟨?_, ?_, ?_⟩ <;>
      simp [Optional.orElse, Optional.orElseGet, Optional.orElseThrow,
        Optional.nonNullValue, h]
  · intro h
    rw [Optional.isEmpty] at h
    refine ⟨?_, ?_, ?_⟩ <;>
      simp [Optional.orElse, Optional.orElseGet, Optional.orElseThrow,
        Optional.nonNullValue, h]

/-- C6 witness: the fallback contract on a present and on an empty instance,
with the callback state counting invocations, a null fallback argument
accepted by orElse, and the supplied error thrown as-is. -/
theorem orElse_orElseGet_orElseThrow_contract_witness :
    ((⟨JSVal.vnum 7⟩ : Optional).orElse JSVal.vnull = JSVal.vnum 7
      ∧ Optional.orElseGet (σ := Nat) ⟨JSVal.vnum 7⟩
          (fun s => (JSVal.vnum 132, s + 1)) 0 = (JSVal.vnum 7, 0)
      ∧ Optional.orElseThrow (σ := Nat) ⟨JSVal.vnum 7⟩
          (fun s => (⟨"boom"⟩, s + 1)) 0 = .ok (JSVal.vnum 7, 0))
    ∧ (Optional.empty.orElse JSVal.vnull = JSVal.vnull
      ∧ Optional.orElseGet (σ := Nat) Optional.empty
          (fun s => (JSVal.vnum 132, s + 1)) 0 = (JSVal.vnum 132, 1)
      ∧ Optional.orElseThrow (σ := Nat) Optional.empty
          (fun s => (⟨"boom"⟩, s + 1)) 0 = .error (⟨"boom"⟩, 1)) :=
  ⟨(orElse_orElseGet_orElseThrow_contract ⟨JSVal.vnum 7⟩ JSVal.vnull
      (fun s => (JSVal.vnum 132, s + 1)) (fun s => (⟨"boom"⟩, s + 1)) 0).1 rfl,
   (orElse_orElseGet_orElseThrow_contract Optional.empty JSVal.vnull
      (fun s => (JSVal.vnum 132, s + 1)) (fun s => (⟨"boom"⟩, s + 1)) 0).2 rfl⟩

/-- C9: an Optional equals itself; two present instances built by the of
factory from strictly equal values are equal (value equality for primitives,
identity for objects); the empty Optional equals the empty Optional, and
because the private constructor normalises both null and undefined to one
null slot, every empty instance the factories can produce is this one
canonical state, so absence equals absence; a present instance never equals
an empty one. -/
theorem equals_contract (o o1 o2 : Optional) (v w : JSVal) :
    o.equals (some o) = .ok true
    ∧ (Optional.of v = .ok o1 → Optional.of w = .ok o2 →
        strictEq v w = true → o1.equals (some o2) = .ok true)
    ∧ Optional.empty.equals (some Optional.empty) = .ok true
    ∧ (o1.isPresent = true → o2.isEmpty = true →
        o1.equals (some o2) = .ok false) := by
  refine ⟨by simp [Optional.equals, strictEq_refl], fun h1 h2 hvw => ?_, rfl,
    fun h1 h2 => ?_⟩
  · have hv : isNullOrUndefined v = false := by
      cases v <;> first
        | rfl
        | simp [Optional.of, requireNonNull, Nullish.toNonNull,
            Except.map] at h1
    have hw : isNullOrUndefined w = false := by
      cases w <;> first
        | rfl
        | simp [Optional.of, requireNonNull, Nullish.toNonNull,
            Except.map] at h2
    rw [of_nonnull hv] at h1
    rw [of_nonnull hw] at h2
    cases h1
    cases h2
    simp [Optional.equals, hvw]
  · obtain ⟨a⟩ := o1
    obtain ⟨b⟩ := o2
    rw [Optional.isPresent, isNotNullOrUndefined, Bool.not_eq_true'] at h1
    rw [Optional.isEmpty] at h2
    simp only [Optional.equals, Except.ok.injEq]
    cases a <;> cases b <;> simp_all [strictEq]

/-- C9 witness: self-equality, equality of two independently built present
instances over the value 123, and disequality of a present and an empty
instance. -/
theorem equals_contract_witness :
    (⟨JSVal.vnum 123⟩ : Optional).equals (some ⟨JSVal.vnum 123⟩) = .ok true
    ∧ (⟨JSVal.vnum 123⟩ : Optional).equals (some Optional.empty) = .ok false := by
  have h :=
    equals_contract ⟨JSVal.vnum 123⟩ ⟨JSVal.vnum 123⟩ Optional.empty
      (JSVal.vnum 123) (JSVal.vnum 123)
  have h2 :=
    equals_contract ⟨JSVal.vnum 123⟩ ⟨JSVal.vnum 123⟩ ⟨JSVal.vnum 123⟩
      (JSVal.vnum 123) (JSVal.vnum 123)
  exact ⟨h2.2.1 (of_nonnull rfl) (of_nonnull rfl) rfl, h.2.2.2 rfl rfl⟩

/-- C10: equals reads the value slot of its argument with no null check, so
calling it with null or undefined throws instead of returning false; on an
actual Optional argument it returns a boolean. -/
theorem equals_null_argument_throws (o other : Optional) :
    (∃ e : JSError, o.equals none = .error e)
    ∧ (∃ b : Bool, o.equals (some other) = .ok b) :=
  ⟨⟨⟨"TypeError: Cannot read properties of null or undefined"⟩, rfl⟩,
   ⟨strictEq o.value other.value, rfl⟩⟩

end TsOptional
